import Mathlib

/-!
Shallow embedding of the anomaly-detection core of the elderly-monitor
repository (app.py): baseline estimation (compute_baselines), per-reading
rule evaluation (the five checks inlined in check_latest_for_user), alert
dispatch (record_and_send_alert) and the orchestration entry points
(check_latest_for_user, periodic_check_all).

Modelling conventions, noted where they matter:
- Python floats are embedded as exact rationals (ℚ).  The float literals
  0.1, 0.01, 0.5, 0.2 of the source become 1/10, 1/100, 1/2, 1/5.
- The source computes a standard deviation with a floating sqrt.  A square
  root is not rational-valued, so a Stat carries the population variance
  (the square of the source's std) and the evaluator's comparisons are the
  exact polynomial equivalents of the source's comparisons on z:
  std > 0 becomes var > 0, abs z >= 3 becomes 9*var <= diff^2, and
  z > 3 becomes 0 < diff and 9*var < diff^2 (diff = latest - mean).
  Theorem c3_zscore_boundary proves these equivalent to the z-score forms.
- haversine is a transcendental function of the four coordinates; the
  evaluator is parameterised by an arbitrary distance function
  dist : ℚ → ℚ → ℚ → ℚ → ℚ standing for it, and every theorem quantifies
  over dist, so nothing proved depends on the haversine values.
- Python numeric string formatting (f-strings with :.1f / :.2f, int(d)) is
  abstracted as a Fmt record of rendering functions; no claim depends on
  the rendered digits, only on the fixed Korean template text surrounding
  them.
- datetime values become UTC epoch seconds (ℕ); datetime.hour is
  t / 3600 % 24; the 14-day lookback is 14 * 86400 seconds.
- Python truthiness on nullable floats (if last.lat and ... in the source)
  is embedded by truthyQ: None and 0.0 are falsy.  Truthiness on nullable
  strings (user.email, user.phone) is embedded by truthyS: None and the
  empty string are falsy.
- send_email / send_sms only print; they are embedded as Notification
  values returned alongside the updated store.
-/

namespace ElderlyMonitor

/-- Per-metric statistics. The source stores mean and std; std is embedded
by its square, the population variance (see the header note). -/
structure Stat where
  mean : ℚ
  var : ℚ
  deriving DecidableEq, Repr

/-- The nonempty dictionary returned by compute_baselines, with its three
keys water_l, gas_m3, motion.  The empty dictionary (zero readings in the
window) is embedded as Option.none at use sites. -/
structure Baselines where
  water_l : Stat
  gas_m3 : Stat
  motion : Stat
  deriving DecidableEq, Repr

/-- User row (app.py class User). -/
structure User where
  id : ℤ
  name : String
  phone : Option String
  email : Option String
  home_lat : Option ℚ
  home_lon : Option ℚ
  geofence_m : ℤ
  deriving DecidableEq, Repr

/-- SensorReading row (app.py class SensorReading); timestamp is UTC epoch
seconds. -/
structure SensorReading where
  user_id : ℤ
  timestamp : ℕ
  lat : Option ℚ
  lon : Option ℚ
  water_l : ℚ
  gas_m3 : ℚ
  motion : ℤ
  door_open : ℤ
  deriving DecidableEq, Repr

/-- Alert row (app.py class Alert). -/
structure Alert where
  user_id : ℤ
  alert_type : String
  details : String
  sent_to : String
  deriving DecidableEq, Repr

/-- One fire-and-forget notification emitted by send_email / send_sms. -/
inductive Notification where
  | email (addr subj body : String)
  | sms (phoneNo message : String)
  deriving DecidableEq, Repr

/-- The reading/alert store backing the SQLAlchemy session. -/
structure Store where
  users : List User
  readings : List SensorReading
  alerts : List Alert
  deriving DecidableEq, Repr

/-- Abstract numeric rendering standing for Python string formatting:
fq renders a float value, fint renders int(d) of a distance, fz renders
the displayed z-score from diff = latest - mean and the variance. -/
structure Fmt where
  fq : ℚ → String
  fint : ℚ → String
  fz : ℚ → ℚ → String

/-- Python truthiness of a nullable float: None and 0.0 are falsy. -/
def truthyQ : Option ℚ → Bool
  | none => false
  | some x => decide (x ≠ 0)

/-- Python truthiness of a nullable string: None and the empty string are
falsy. -/
def truthyS : Option String → Bool
  | none => false
  | some s => decide (s ≠ "")

/-- List-of-characters prefix test (helper for the substring scan). -/
def isPrefixChars : List Char → List Char → Bool
  | [], _ => true
  | _ :: _, [] => false
  | a :: pa, b :: pb => a == b && isPrefixChars pa pb

/-- List-of-characters substring test (Python's in operator on str). -/
def isSubChars (pat : List Char) : List Char → Bool
  | [] => isPrefixChars pat []
  | c :: rest => isPrefixChars pat (c :: rest) || isSubChars pat rest

/-- The composite rule's text scan (app.py line 185): does the finding
contain the substring 급증 (spike) or 이상 (deviation)? -/
def hasMarker (s : String) : Bool :=
  isSubChars "급증".data s.data || isSubChars "이상".data s.data

/-- datetime.hour of a UTC epoch-second timestamp. -/
def hourOf (t : ℕ) : ℕ := t / 3600 % 24

/-- User.query.get(user_id). -/
def getUser (st : Store) (uid : ℤ) : Option User :=
  st.users.find? (fun u => u.id == uid)

/-- SensorReading.query.filter_by(user_id).order_by(timestamp desc).first():
the reading of the user with the maximal timestamp (app.py line 133). -/
def latestReading (uid : ℤ) (st : Store) : Option SensorReading :=
  (st.readings.filter (fun r => r.user_id == uid)).foldl
    (fun acc r =>
      match acc with
      | none => some r
      | some a => if a.timestamp < r.timestamp then some r else some a)
    none

/-- The rows selected by compute_baselines (app.py lines 108-112): readings
of the user with timestamp at least now minus 14 days. -/
def windowReadings (now : ℕ) (uid : ℤ) (st : Store) : List SensorReading :=
  st.readings.filter (fun r => r.user_id == uid && decide (now - 14 * 86400 ≤ r.timestamp))

/-- Mean and guarded population variance of a column (app.py lines 123-124):
mean over the window; variance ddof=0 when more than one sample, else 0. -/
def statOf (xs : List ℚ) : Stat :=
  let m := xs.sum / (xs.length : ℚ)
  { mean := m
    var := if 1 < xs.length then ((xs.map (fun x => (x - m) ^ 2)).sum) / (xs.length : ℚ) else 0 }

/-- compute_baselines (app.py lines 107-126): empty dict (none) when no
reading lies in the window, else the three per-metric stats. -/
def compute_baselines (now : ℕ) (uid : ℤ) (st : Store) : Option Baselines :=
  let rows := windowReadings now uid st
  if rows = [] then none
  else
    some
      { water_l := statOf (rows.map SensorReading.water_l)
        gas_m3 := statOf (rows.map SensorReading.gas_m3)
        motion := statOf (rows.map (fun r => (r.motion : ℚ))) }

/-- Shared shape of the water block (app.py lines 142-151) and the gas
block (lines 154-163).  With a present key and positive variance: the
deviation branch (finding when 9*var <= diff^2, i.e. abs z >= 3; high
flag when 0 < diff and 9*var < diff^2, i.e. z > 3).  Otherwise the spike
branch with the dictionary-default mean 0 when the key is absent. -/
def resourceCheck (s? : Option Stat) (x : ℚ) (devTxt : Stat → ℚ → String)
    (spikeTxt : String) (meanThr spikeThr : ℚ) : List String × Bool :=
  match s? with
  | some s =>
    if 0 < s.var then
      let diff := x - s.mean
      if 9 * s.var ≤ diff ^ 2 then
        ([devTxt s diff], decide (0 < diff ∧ 9 * s.var < diff ^ 2))
      else ([], false)
    else
      if s.mean < meanThr ∧ spikeThr < x then ([spikeTxt], true) else ([], false)
  | none =>
    if (0 : ℚ) < meanThr ∧ spikeThr < x then ([spikeTxt], true) else ([], false)

/-- Water check (app.py lines 142-151), thresholds 0.1 L and 5 L. -/
def waterCheck (F : Fmt) (b? : Option Baselines) (r : SensorReading) : List String × Bool :=
  resourceCheck (b?.map Baselines.water_l) r.water_l
    (fun s diff => "수도 사용량 이상: 최근=" ++ F.fq r.water_l ++ "L, 평균=" ++ F.fq s.mean ++ "L, z=" ++ F.fz diff s.var)
    ("수도 사용 급증: " ++ F.fq r.water_l ++ "L (평소 거의 사용 없음)")
    (1 / 10) 5

/-- Gas check (app.py lines 154-163), thresholds 0.01 m³ and 0.1 m³. -/
def gasCheck (F : Fmt) (b? : Option Baselines) (r : SensorReading) : List String × Bool :=
  resourceCheck (b?.map Baselines.gas_m3) r.gas_m3
    (fun s diff => "가스 사용량 이상: 최근=" ++ F.fq r.gas_m3 ++ "m³, 평균=" ++ F.fq s.mean ++ "m³, z=" ++ F.fz diff s.var)
    ("가스 사용 급증: " ++ F.fq r.gas_m3 ++ "m³ (평소 거의 사용 없음)")
    (1 / 100) (1 / 10)

/-- Motion check (app.py lines 166-171): informational findings only,
never touches high_risk. -/
def motionCheck (b? : Option Baselines) (r : SensorReading) : List String :=
  match b? with
  | none => []
  | some b =>
    (if 1 / 2 ≤ b.motion.mean ∧ r.motion = 0 then ["활동 이상(평소 활동적이나 현재 무활동)"] else []) ++
    (if b.motion.mean < 1 / 5 ∧ r.motion = 1 then ["활동 이상(평소 거의 없음에도 현재 활동 감지)"] else [])

/-- The truthiness guard shared by the geofence and composite blocks
(app.py lines 174 and 182): last.lat and last.lon and user.home_lat and
user.home_lon. -/
def coordsTruthy (u : User) (r : SensorReading) : Bool :=
  truthyQ r.lat && truthyQ r.lon && truthyQ u.home_lat && truthyQ u.home_lon

/-- The haversine call of the geofence and composite blocks, with the
distance function abstract. -/
def distOf (dist : ℚ → ℚ → ℚ → ℚ → ℚ) (u : User) (r : SensorReading) : ℚ :=
  dist (r.lat.getD 0) (r.lon.getD 0) (u.home_lat.getD 0) (u.home_lon.getD 0)

/-- Geofence check (app.py lines 174-179): under the truthiness guard,
finding when the distance exceeds the radius; high flag, inside the breach
branch only, when the reading's hour is 23 or earlier than 6. -/
def geofenceCheck (F : Fmt) (dist : ℚ → ℚ → ℚ → ℚ → ℚ) (u : User) (r : SensorReading) :
    List String × Bool :=
  if coordsTruthy u r = true then
    if (u.geofence_m : ℚ) < distOf dist u r then
      (["지오펜스 이탈: 거리 " ++ F.fint (distOf dist u r) ++ "m (설정 " ++ toString u.geofence_m ++ "m)"],
        decide (23 ≤ hourOf r.timestamp) || decide (hourOf r.timestamp < 6))
    else ([], false)
  else ([], false)

/-- Composite escalation (app.py lines 182-186): under the same truthiness
guard, recompute the distance; escalate when at home (distance at most the
radius) and some already-collected finding contains 급증 or 이상. -/
def compositeCheck (dist : ℚ → ℚ → ℚ → ℚ → ℚ) (u : User) (r : SensorReading)
    (details : List String) : Bool :=
  if coordsTruthy u r = true then
    decide (distOf dist u r ≤ (u.geofence_m : ℚ)) && details.any hasMarker
  else false

/-- The five checks inlined in check_latest_for_user (app.py lines
138-186): findings in check order, high_risk the disjunction of the four
flag sources (the motion check never flags). -/
def evaluate (F : Fmt) (dist : ℚ → ℚ → ℚ → ℚ → ℚ) (u : User) (r : SensorReading)
    (b? : Option Baselines) : List String × Bool :=
  let w := waterCheck F b? r
  let g := gasCheck F b? r
  let m := motionCheck b? r
  let geo := geofenceCheck F dist u r
  let details := w.1 ++ g.1 ++ m ++ geo.1
  (details, w.2 || g.2 || geo.2 || compositeCheck dist u r details)

/-- record_and_send_alert (app.py lines 92-103): look the user up again,
notify each truthy contact channel (email first, then phone), then always
persist exactly one Alert whose sent_to is the comma-joined attempted
recipients. -/
def record_and_send_alert (uid : ℤ) (alert_type details : String) (st : Store) :
    Store × List Notification :=
  let user? := getUser st uid
  let emails : List String :=
    match user? with
    | some u =>
      match u.email with
      | some e => if e ≠ "" then [e] else []
      | none => []
    | none => []
  let phones : List String :=
    match user? with
    | some u =>
      match u.phone with
      | some p => if p ≠ "" then [p] else []
      | none => []
    | none => []
  let notifs :=
    emails.map (fun e => Notification.email e ("[알림] " ++ alert_type) details) ++
      phones.map (fun p => Notification.sms p details)
  let a : Alert :=
    { user_id := uid, alert_type := alert_type, details := details
      sent_to := String.intercalate "," (emails ++ phones) }
  ({ st with alerts := st.alerts ++ [a] }, notifs)

/-- check_latest_for_user (app.py lines 129-191): silent return when the
user or a latest reading is absent; otherwise run the checks and, only
when the findings list is nonempty, dispatch one alert labelled HIGH or
LOW with the findings joined by a semicolon. -/
def check_latest_for_user (F : Fmt) (dist : ℚ → ℚ → ℚ → ℚ → ℚ) (now : ℕ) (uid : ℤ)
    (st : Store) : Store × List Notification :=
  match getUser st uid with
  | none => (st, [])
  | some user =>
    match latestReading uid st with
    | none => (st, [])
    | some last =>
      let ev := evaluate F dist user last (compute_baselines now uid st)
      if ev.1 = [] then (st, [])
      else
        record_and_send_alert uid ((if ev.2 then "HIGH" else "LOW") ++ " 이상징후")
          (String.intercalate "; " ev.1) st

/-- periodic_check_all (app.py lines 197-201) in the failure-free case:
the plain for loop over all users, threading the store. -/
def periodic_check_all (F : Fmt) (dist : ℚ → ℚ → ℚ → ℚ → ℚ) (now : ℕ) (st : Store) :
    Store × List Notification :=
  (st.users.map User.id).foldl
    (fun acc uid =>
      let r := check_latest_for_user F dist now uid acc.1
      (r.1, acc.2 ++ r.2))
    (st, [])

/-- Python for-loop semantics of the sweep in periodic_check_all (app.py
lines 199-201): the loop body has no try/except around it, so an exception
raised while evaluating one user propagates, carrying the state reached so
far, and the remaining iterations never run. -/
def forLoopExcept (body : α → σ → Except String σ) : List α → σ → Except (String × σ) σ
  | [], s => Except.ok s
  | a :: rest, s =>
    match body a s with
    | Except.error e => Except.error (e, s)
    | Except.ok s2 => forLoopExcept body rest s2

/-- A per-subject evaluation that raises for subject 1 (for example the
database commit inside record_and_send_alert throwing) and otherwise logs
the subject it evaluated. -/
def failingEvaluator : ℤ → List ℤ → Except String (List ℤ) :=
  fun uid log => if uid = 1 then Except.error "evaluation raised" else Except.ok (log ++ [uid])

/-- The findings computed by one check_latest_for_user call: empty when the
user or the latest reading is absent. -/
def findingsOf (F : Fmt) (dist : ℚ → ℚ → ℚ → ℚ → ℚ) (now : ℕ) (uid : ℤ) (st : Store) :
    List String :=
  match getUser st uid, latestReading uid st with
  | some u, some r => (evaluate F dist u r (compute_baselines now uid st)).1
  | _, _ => []

/-- The contact channels record_and_send_alert actually attempts: the
truthy email then the truthy phone of the user, nothing when the user is
absent. -/
def attemptedContacts (st : Store) (uid : ℤ) : List String :=
  match getUser st uid with
  | none => []
  | some u =>
    (match u.email with
      | some e => if e ≠ "" then [e] else []
      | none => []) ++
    (match u.phone with
      | some p => if p ≠ "" then [p] else []
      | none => [])

/-- Rendering instance for concrete test inputs: every number renders as
the empty string (no claim depends on the digits). -/
def F0 : Fmt := { fq := fun _ => "", fint := fun _ => "", fz := fun _ _ => "" }

/-- Constant distance functions for concrete test inputs. -/
def dist0 : ℚ → ℚ → ℚ → ℚ → ℚ := fun _ _ _ _ => 0

def dist10 : ℚ → ℚ → ℚ → ℚ → ℚ := fun _ _ _ _ => 10

def dist600 : ℚ → ℚ → ℚ → ℚ → ℚ := fun _ _ _ _ => 600

/-- Concrete subject at home coordinates (5, 10) with the default 500 m
geofence and no contact channels. -/
def u1 : User :=
  { id := 1, name := "kim", phone := none, email := none
    home_lat := some 5, home_lon := some 10, geofence_m := 500 }

/-- Concrete reading at noon, at the home coordinates, no resource use and
no motion. -/
def r1 : SensorReading :=
  { user_id := 1, timestamp := 43200, lat := some 5, lon := some 10
    water_l := 0, gas_m3 := 0, motion := 0, door_open := 0 }

/-- Concrete baselines: flat zero resource use with unit variance, and a
usually-active motion baseline. -/
def b1 : Baselines :=
  { water_l := { mean := 0, var := 1 }, gas_m3 := { mean := 0, var := 1 }
    motion := { mean := 1, var := 0 } }

/-- Concrete reading whose latitude is the present value 0.0 (a point on
the equator). -/
def r5 : SensorReading :=
  { user_id := 1, timestamp := 43200, lat := some 0, lon := some 10
    water_l := 0, gas_m3 := 0, motion := 0, door_open := 0 }

/-- Concrete subject with both contact channels and no home coordinates. -/
def u2 : User :=
  { id := 1, name := "lee", phone := some "01012345678", email := some "a@b.c"
    home_lat := none, home_lon := none, geofence_m := 500 }

/-- Concrete reading far older than the lookback window, with 6 L of water
use. -/
def r2 : SensorReading :=
  { user_id := 1, timestamp := 0, lat := none, lon := none
    water_l := 6, gas_m3 := 0, motion := 0, door_open := 0 }

/-- Store holding u2 and only the stale reading r2. -/
def st2 : Store := { users := [u2], readings := [r2], alerts := [] }

/-- An evaluation instant 14 days after which r2 is outside the window. -/
def now2 : ℕ := 2000000

/-- Concrete fresh reading used for the baseline witness. -/
def r10 : SensorReading :=
  { user_id := 1, timestamp := 1000000, lat := none, lon := none
    water_l := 3, gas_m3 := 2, motion := 1, door_open := 0 }

/-- Store holding u2 and the single fresh reading r10. -/
def st10 : Store := { users := [u2], readings := [r10], alerts := [] }

/-- The empty store. -/
def emptyStore : Store := { users := [], readings := [], alerts := [] }

/-- Concrete reading with 4 L of water and 4 m³ of gas, four standard
deviations above the b1 baselines. -/
def r3 : SensorReading :=
  { user_id := 1, timestamp := 0, lat := none, lon := none
    water_l := 4, gas_m3 := 4, motion := 0, door_open := 0 }

/-- Concrete reading at the home coordinates at 23:00 UTC. -/
def r4 : SensorReading :=
  { user_id := 1, timestamp := 82800, lat := some 5, lon := some 10
    water_l := 0, gas_m3 := 0, motion := 0, door_open := 0 }

/-- What the spec asks of one metric's baseline over the window xs: the
mean is the arithmetic mean and the variance is the population variance,
both stated multiplied through by the sample count. -/
def statSpec (xs : List ℚ) (t : Stat) : Prop :=
  t.mean * (xs.length : ℚ) = xs.sum ∧
    t.var * (xs.length : ℚ) = ((xs.map (fun x => (x - t.mean) ^ 2)).sum)

/-- A prefix of a list remains a prefix after extending the list. -/
theorem isPrefixChars_append (p : List Char) :
    ∀ a b, isPrefixChars p a = true → isPrefixChars p (a ++ b) = true := by
  induction p with
  | nil => intro a b _; rfl
  | cons c cs ih =>
    intro a b h
    cases a with
    | nil => simp [isPrefixChars] at h
    | cons d ds =>
      simp only [List.cons_append, isPrefixChars, Bool.and_eq_true] at h ⊢
      exact ⟨h.1, ih ds b h.2⟩

/-- The empty pattern is a substring of every list. -/
theorem isSubChars_nil (l : List Char) : isSubChars [] l = true := by
  induction l with
  | nil => rfl
  | cons c rest ih => simp [isSubChars, isPrefixChars]

/-- A pattern that prefixes the empty list is empty. -/
theorem isPrefixChars_nil_eq (p : List Char) (h : isPrefixChars p [] = true) : p = [] := by
  cases p with
  | nil => rfl
  | cons c cs => simp [isPrefixChars] at h

/-- A substring of a list remains a substring after extending the list. -/
theorem isSubChars_append (p a b : List Char) (h : isSubChars p a = true) :
    isSubChars p (a ++ b) = true := by
  induction a with
  | nil =>
    have h2 : isPrefixChars p [] = true := h
    have hp := isPrefixChars_nil_eq p h2
    subst hp
    exact isSubChars_nil b
  | cons c rest ih =>
    simp only [isSubChars, Bool.or_eq_true, List.cons_append] at h ⊢
    rcases h with h | h
    · exact Or.inl (isPrefixChars_append p (c :: rest) b h)
    · exact Or.inr (ih h)

/-- A finding that carries a marker still carries it after appending
further text on the right. -/
theorem hasMarker_append (s t : String) (h : hasMarker s = true) :
    hasMarker (s ++ t) = true := by
  unfold hasMarker at h ⊢
  rw [String.data_append]
  simp only [Bool.or_eq_true] at h ⊢
  rcases h with h | h
  · exact Or.inl (isSubChars_append _ _ _ h)
  · exact Or.inr (isSubChars_append _ _ _ h)

/-- The water deviation finding contains the marker 이상 whatever the
rendered numbers are. -/
theorem marker_waterDev (a b c : String) :
    hasMarker ("수도 사용량 이상: 최근=" ++ a ++ "L, 평균=" ++ b ++ "L, z=" ++ c) = true := by
  apply hasMarker_append
  apply hasMarker_append
  apply hasMarker_append
  apply hasMarker_append
  apply hasMarker_append
  decide

/-- The water spike finding contains the marker 급증 whatever the rendered
number is. -/
theorem marker_waterSpike (a : String) :
    hasMarker ("수도 사용 급증: " ++ a ++ "L (평소 거의 사용 없음)") = true := by
  apply hasMarker_append
  apply hasMarker_append
  decide

/-- The gas deviation finding contains the marker 이상 whatever the
rendered numbers are. -/
theorem marker_gasDev (a b c : String) :
    hasMarker ("가스 사용량 이상: 최근=" ++ a ++ "m³, 평균=" ++ b ++ "m³, z=" ++ c) = true := by
  apply hasMarker_append
  apply hasMarker_append
  apply hasMarker_append
  apply hasMarker_append
  apply hasMarker_append
  decide

/-- The gas spike finding contains the marker 급증 whatever the rendered
number is. -/
theorem marker_gasSpike (a : String) :
    hasMarker ("가스 사용 급증: " ++ a ++ "m³ (평소 거의 사용 없음)") = true := by
  apply hasMarker_append
  apply hasMarker_append
  decide

/-- A resource check returns its deviation pair, its spike pair, or the
silent pair. -/
theorem resourceCheck_cases (s? : Option Stat) (x : ℚ) (devTxt : Stat → ℚ → String)
    (spikeTxt : String) (mt spk : ℚ) :
    (∃ s f, resourceCheck s? x devTxt spikeTxt mt spk = ([devTxt s (x - s.mean)], f)) ∨
    resourceCheck s? x devTxt spikeTxt mt spk = ([spikeTxt], true) ∨
    resourceCheck s? x devTxt spikeTxt mt spk = ([], false) := by
  cases s? with
  | none =>
    simp only [resourceCheck]
    split_ifs with h
    · exact Or.inr (Or.inl rfl)
    · exact Or.inr (Or.inr rfl)
  | some s =>
    simp only [resourceCheck]
    split_ifs with h1 h2 h3
    · exact Or.inl ⟨s, _, rfl⟩
    · exact Or.inr (Or.inr rfl)
    · exact Or.inr (Or.inl rfl)
    · exact Or.inr (Or.inr rfl)

/-- Every finding a resource check emits is its deviation text or its
spike text. -/
theorem resourceCheck_mem (s? : Option Stat) (x : ℚ) (devTxt : Stat → ℚ → String)
    (spikeTxt : String) (mt spk : ℚ) (t : String)
    (h : t ∈ (resourceCheck s? x devTxt spikeTxt mt spk).1) :
    (∃ s d, t = devTxt s d) ∨ t = spikeTxt := by
  rcases resourceCheck_cases s? x devTxt spikeTxt mt spk with ⟨s, f, he⟩ | he | he <;>
    rw [he] at h
  · simp at h
    exact Or.inl ⟨s, _, h⟩
  · simp at h
    exact Or.inr h
  · simp at h

/-- A resource check that raises the high flag also emitted a finding. -/
theorem resourceCheck_flag (s? : Option Stat) (x : ℚ) (devTxt : Stat → ℚ → String)
    (spikeTxt : String) (mt spk : ℚ)
    (h : (resourceCheck s? x devTxt spikeTxt mt spk).2 = true) :
    (resourceCheck s? x devTxt spikeTxt mt spk).1 ≠ [] := by
  rcases resourceCheck_cases s? x devTxt spikeTxt mt spk with ⟨s, f, he⟩ | he | he <;>
    rw [he] at h ⊢ <;> simp_all

/-- Every water finding contains a marker substring. -/
theorem waterCheck_mem (F : Fmt) (b? : Option Baselines) (r : SensorReading) (t : String)
    (h : t ∈ (waterCheck F b? r).1) : hasMarker t = true := by
  unfold waterCheck at h
  rcases resourceCheck_mem _ _ _ _ _ _ _ h with ⟨s, d, rfl⟩ | rfl
  · exact marker_waterDev _ _ _
  · exact marker_waterSpike _

/-- Every gas finding contains a marker substring. -/
theorem gasCheck_mem (F : Fmt) (b? : Option Baselines) (r : SensorReading) (t : String)
    (h : t ∈ (gasCheck F b? r).1) : hasMarker t = true := by
  unfold gasCheck at h
  rcases resourceCheck_mem _ _ _ _ _ _ _ h with ⟨s, d, rfl⟩ | rfl
  · exact marker_gasDev _ _ _
  · exact marker_gasSpike _

/-- Every motion finding contains a marker substring (both fixed texts
contain 이상). -/
theorem motionCheck_mem (b? : Option Baselines) (r : SensorReading) (t : String)
    (h : t ∈ motionCheck b? r) : hasMarker t = true := by
  cases b? with
  | none => simp [motionCheck] at h
  | some b =>
    unfold motionCheck at h
    rw [List.mem_append] at h
    rcases h with h | h <;> split_ifs at h <;> simp at h <;> subst h <;> decide

/-- If the water check raised the high flag, a water finding exists. -/
theorem waterCheck_flag (F : Fmt) (b? : Option Baselines) (r : SensorReading)
    (h : (waterCheck F b? r).2 = true) : (waterCheck F b? r).1 ≠ [] := by
  unfold waterCheck at h ⊢
  exact resourceCheck_flag _ _ _ _ _ _ h

/-- If the gas check raised the high flag, a gas finding exists. -/
theorem gasCheck_flag (F : Fmt) (b? : Option Baselines) (r : SensorReading)
    (h : (gasCheck F b? r).2 = true) : (gasCheck F b? r).1 ≠ [] := by
  unfold gasCheck at h ⊢
  exact resourceCheck_flag _ _ _ _ _ _ h

/-- Under a falsy coordinate the geofence block is skipped entirely. -/
theorem geofenceCheck_not_truthy (F : Fmt) (dist : ℚ → ℚ → ℚ → ℚ → ℚ) (u : User)
    (r : SensorReading) (h : coordsTruthy u r = false) :
    geofenceCheck F dist u r = ([], false) := by
  unfold geofenceCheck
  rw [if_neg (by simp [h])]

/-- Under a falsy coordinate the composite block is skipped entirely. -/
theorem compositeCheck_not_truthy (dist : ℚ → ℚ → ℚ → ℚ → ℚ) (u : User)
    (r : SensorReading) (details : List String) (h : coordsTruthy u r = false) :
    compositeCheck dist u r details = false := by
  unfold compositeCheck
  rw [if_neg (by simp [h])]

/-- Inside the geofence no breach finding and no geofence flag arise. -/
theorem geofenceCheck_at_home (F : Fmt) (dist : ℚ → ℚ → ℚ → ℚ → ℚ) (u : User)
    (r : SensorReading) (h : coordsTruthy u r = true)
    (hd : distOf dist u r ≤ (u.geofence_m : ℚ)) :
    geofenceCheck F dist u r = ([], false) := by
  unfold geofenceCheck
  rw [if_pos h, if_neg (not_lt.mpr hd)]

/-- The geofence block under the truthiness guard: a finding exactly on
breach, the flag exactly on breach during the night window. -/
theorem geofenceCheck_truthy_spec (F : Fmt) (dist : ℚ → ℚ → ℚ → ℚ → ℚ) (u : User)
    (r : SensorReading) (h : coordsTruthy u r = true) :
    ((geofenceCheck F dist u r).1 ≠ [] ↔ (u.geofence_m : ℚ) < distOf dist u r) ∧
    ((geofenceCheck F dist u r).2 = true ↔
      ((u.geofence_m : ℚ) < distOf dist u r ∧
        (23 ≤ hourOf r.timestamp ∨ hourOf r.timestamp < 6))) := by
  unfold geofenceCheck
  rw [if_pos h]
  by_cases hb : (u.geofence_m : ℚ) < distOf dist u r
  · rw [if_pos hb]
    constructor
    · simpa using hb
    · simp [hb]
  · rw [if_neg hb]
    constructor
    · simpa using hb
    · simp [hb]

/-- Python truthiness of an optional coordinate, spelled out. -/
theorem truthyQ_iff (o : Option ℚ) : truthyQ o = true ↔ ∃ a, o = some a ∧ a ≠ 0 := by
  cases o with
  | none => simp [truthyQ]
  | some x => simp [truthyQ]

/-- The variance-form comparisons of the embedding are the z-score
comparisons of the source: for std > 0 with std squared the variance,
9*var ≤ diff^2 is abs z ≥ 3 and (0 < diff and 9*var < diff^2) is z > 3. -/
theorem zscore_iff (s v d : ℚ) (hs : 0 < s) (hv : s ^ 2 = v) :
    (9 * v ≤ d ^ 2 ↔ 3 ≤ |d / s|) ∧ ((0 < d ∧ 9 * v < d ^ 2) ↔ 3 < d / s) := by
  subst hv
  rw [abs_div, abs_of_pos hs, le_div_iff₀ hs, lt_div_iff₀ hs]
  constructor
  · constructor
    · intro h
      nlinarith [abs_nonneg d, sq_abs d, sq_nonneg (|d| - 3 * s), sq_nonneg (|d| + 3 * s)]
    · intro h
      nlinarith [abs_nonneg d, sq_abs d]
  · constructor
    · rintro ⟨hd, h⟩
      nlinarith
    · intro h
      constructor
      · nlinarith
      · nlinarith

/-- The deviation branch of a resource check, phrased with z-scores. -/
theorem resourceCheck_dev (s : Stat) (x : ℚ) (devTxt : Stat → ℚ → String)
    (spikeTxt : String) (mt spk : ℚ) (std : ℚ) (hs : 0 < std) (hsv : std ^ 2 = s.var) :
    ((resourceCheck (some s) x devTxt spikeTxt mt spk).1 ≠ [] ↔ 3 ≤ |(x - s.mean) / std|) ∧
    ((resourceCheck (some s) x devTxt spikeTxt mt spk).2 = true ↔ 3 < (x - s.mean) / std) := by
  have hv : 0 < s.var := hsv ▸ pow_pos hs 2
  obtain ⟨h1, h2⟩ := zscore_iff std s.var (x - s.mean) hs hsv
  simp only [resourceCheck]
  rw [if_pos hv]
  by_cases hc : 9 * s.var ≤ (x - s.mean) ^ 2
  · rw [if_pos hc]
    constructor
    · simpa using h1.mp hc
    · simpa using h2
  · rw [if_neg hc]
    constructor
    · simp only [ne_eq, not_true_eq_false, false_iff]
      exact fun hz => hc (h1.mpr hz)
    · simp only [Bool.false_eq_true, false_iff]
      intro hz
      exact hc (le_of_lt (h2.mpr hz).2)

/-- record_and_send_alert always appends exactly one alert whose sent_to
is the comma-joined attempted contact list. -/
theorem record_alerts_eq (uid : ℤ) (t d : String) (st : Store) :
    (record_and_send_alert uid t d st).1.alerts = st.alerts ++
      [{ user_id := uid, alert_type := t, details := d
         sent_to := String.intercalate "," (attemptedContacts st uid) }] := by
  unfold record_and_send_alert attemptedContacts
  cases hgu : getUser st uid with
  | none => rfl
  | some u => cases u.email <;> cases u.phone <;> rfl

/-- Appending one element changes a list. -/
theorem append_singleton_ne (l : List Alert) (a : Alert) : l ++ [a] ≠ l := by
  intro h
  simpa using congrArg List.length h

/-- C3: when the water (respectively gas) baseline standard deviation is
positive, with z the z-score of the latest value, the deviation finding is
emitted exactly when abs z is at least 3 (inclusive boundary), and the
check raises high_risk exactly when z is strictly above 3 — a downward
deviation or z exactly 3 yields the finding but never the flag. -/
theorem c3_zscore_boundary (F : Fmt) (b : Baselines) (r : SensorReading) (stdw stdg : ℚ)
    (hw : 0 < stdw) (hww : stdw ^ 2 = b.water_l.var)
    (hg : 0 < stdg) (hgg : stdg ^ 2 = b.gas_m3.var) :
    ((waterCheck F (some b) r).1 ≠ [] ↔ 3 ≤ |(r.water_l - b.water_l.mean) / stdw|) ∧
    ((waterCheck F (some b) r).2 = true ↔ 3 < (r.water_l - b.water_l.mean) / stdw) ∧
    ((gasCheck F (some b) r).1 ≠ [] ↔ 3 ≤ |(r.gas_m3 - b.gas_m3.mean) / stdg|) ∧
    ((gasCheck F (some b) r).2 = true ↔ 3 < (r.gas_m3 - b.gas_m3.mean) / stdg) := by
  obtain ⟨hw1, hw2⟩ := resourceCheck_dev b.water_l r.water_l
    (fun s diff => "수도 사용량 이상: 최근=" ++ F.fq r.water_l ++ "L, 평균=" ++ F.fq s.mean ++ "L, z=" ++ F.fz diff s.var)
    ("수도 사용 급증: " ++ F.fq r.water_l ++ "L (평소 거의 사용 없음)")
    (1 / 10) 5 stdw hw hww
  obtain ⟨hg1, hg2⟩ := resourceCheck_dev b.gas_m3 r.gas_m3
    (fun s diff => "가스 사용량 이상: 최근=" ++ F.fq r.gas_m3 ++ "m³, 평균=" ++ F.fq s.mean ++ "m³, z=" ++ F.fz diff s.var)
    ("가스 사용 급증: " ++ F.fq r.gas_m3 ++ "m³ (평소 거의 사용 없음)")
    (1 / 100) (1 / 10) stdg hg hgg
  exact ⟨hw1, hw2, hg1, hg2⟩

/-- C3 witness: at the b1 baseline (mean 0, variance 1, std 1) and a
reading of 4 L water and 4 m³ gas, z = 4: finding and flag for water,
finding for gas. -/
theorem c3_witness :
    (0 : ℚ) < 1 ∧ (1 : ℚ) ^ 2 = b1.water_l.var ∧
    ((waterCheck F0 (some b1) r3).2 = true ↔ 3 < (r3.water_l - b1.water_l.mean) / 1) ∧
    ((gasCheck F0 (some b1) r3).1 ≠ [] ↔ 3 ≤ |(r3.gas_m3 - b1.gas_m3.mean) / 1|) :=
  ⟨by norm_num, by decide,
    (c3_zscore_boundary F0 b1 r3 1 1 (by norm_num) (by decide) (by norm_num) (by decide)).2.1,
    (c3_zscore_boundary F0 b1 r3 1 1 (by norm_num) (by decide) (by norm_num) (by decide)).2.2.1⟩

/-- C4: when the geofence check runs (all four coordinates truthy) and
computes distance d, a finding is emitted exactly when d exceeds the
radius, and high_risk is raised exactly when the breach occurred and the
reading's hour lies in the night window 23..24 or 0..6; the hour always
lies below 24, so the window is 23 ≤ h or h < 6. -/
theorem c4_geofence (F : Fmt) (dist : ℚ → ℚ → ℚ → ℚ → ℚ) (u : User) (r : SensorReading)
    (h : coordsTruthy u r = true) :
    ((geofenceCheck F dist u r).1 ≠ [] ↔ (u.geofence_m : ℚ) < distOf dist u r) ∧
    ((geofenceCheck F dist u r).2 = true ↔
      ((u.geofence_m : ℚ) < distOf dist u r ∧
        (23 ≤ hourOf r.timestamp ∨ hourOf r.timestamp < 6))) ∧
    hourOf r.timestamp < 24 := by
  obtain ⟨h1, h2⟩ := geofenceCheck_truthy_spec F dist u r h
  exact ⟨h1, h2, Nat.mod_lt _ (by norm_num)⟩

/-- C4 witness: breach at 600 m over a 500 m radius at 23:00 raises the
flag. -/
theorem c4_witness :
    coordsTruthy u1 r4 = true ∧
    ((geofenceCheck F0 dist600 u1 r4).2 = true ↔
      ((u1.geofence_m : ℚ) < distOf dist600 u1 r4 ∧
        (23 ≤ hourOf r4.timestamp ∨ hourOf r4.timestamp < 6))) :=
  ⟨by decide, (c4_geofence F0 dist600 u1 r4 (by decide)).2.1⟩

/-- C5 counterexample: the reading r5 carries the present coordinate 0.0
and the subject u1 has home coordinates, and the constant distance 600
exceeds the 500 m radius, yet neither the geofence finding nor any other
finding is produced — a present coordinate equal to 0.0 is treated as
absent, refuting the claim that presence alone decides. -/
theorem c5_counterexample :
    r5.lat = some 0 ∧ r5.lon = some 10 ∧ u1.home_lat = some 5 ∧ u1.home_lon = some 10 ∧
    (u1.geofence_m : ℚ) < dist600 0 10 5 10 ∧
    geofenceCheck F0 dist600 u1 r5 = ([], false) ∧
    (evaluate F0 dist600 u1 r5 none).1 = [] := by
  have hct : coordsTruthy u1 r5 = false := by
    simp [coordsTruthy, truthyQ, r5]
  have hgeo : geofenceCheck F0 dist600 u1 r5 = ([], false) :=
    geofenceCheck_not_truthy F0 dist600 u1 r5 hct
  have hw : waterCheck F0 none r5 = ([], false) := by
    simp only [waterCheck, resourceCheck, r5, Option.map]
    norm_num
  have hg : gasCheck F0 none r5 = ([], false) := by
    simp only [gasCheck, resourceCheck, r5, Option.map]
    norm_num
  refine ⟨rfl, rfl, rfl, rfl, by norm_num [u1, dist600], hgeo, ?_⟩
  simp only [evaluate, hw, hg, hgeo, motionCheck]
  rfl

/-- C5 (amended): the geofence and composite checks run exactly when all
four coordinates are present AND nonzero (Python truthiness); a present
coordinate equal to 0.0 is treated as absent and both checks are skipped;
when the guard holds the geofence finding is emitted exactly on breach. -/
theorem c5_truthiness (F : Fmt) (dist : ℚ → ℚ → ℚ → ℚ → ℚ) (u : User) (r : SensorReading)
    (details : List String) :
    (coordsTruthy u r = true ↔
      ((∃ a, r.lat = some a ∧ a ≠ 0) ∧ (∃ a, r.lon = some a ∧ a ≠ 0) ∧
        (∃ a, u.home_lat = some a ∧ a ≠ 0) ∧ (∃ a, u.home_lon = some a ∧ a ≠ 0))) ∧
    (coordsTruthy u r = false →
      geofenceCheck F dist u r = ([], false) ∧ compositeCheck dist u r details = false) ∧
    (coordsTruthy u r = true →
      ((geofenceCheck F dist u r).1 ≠ [] ↔ (u.geofence_m : ℚ) < distOf dist u r)) := by
  refine ⟨?_, ?_, ?_⟩
  · unfold coordsTruthy
    simp only [Bool.and_eq_true, truthyQ_iff]
    tauto
  · intro h
    exact ⟨geofenceCheck_not_truthy F dist u r h, compositeCheck_not_truthy dist u r details h⟩
  · intro h
    exact (geofenceCheck_truthy_spec F dist u r h).1

/-- C5 witness: with the equatorial reading r5 the guard is false and both
checks are skipped. -/
theorem c5_witness :
    geofenceCheck F0 dist600 u1 r5 = ([], false) ∧ compositeCheck dist600 u1 r5 [] = false :=
  (c5_truthiness F0 dist600 u1 r5 []).2.1 (by decide)

/-- C7: when the subject is absent from the store or has no reading, the
evaluation returns silently: the store is unchanged, no notification is
sent, and no findings are computed. -/
theorem c7_silent_when_missing (F : Fmt) (dist : ℚ → ℚ → ℚ → ℚ → ℚ) (now : ℕ) (uid : ℤ)
    (st : Store) (h : getUser st uid = none ∨ latestReading uid st = none) :
    check_latest_for_user F dist now uid st = (st, []) ∧ findingsOf F dist now uid st = [] := by
  unfold check_latest_for_user findingsOf
  rcases h with h | h
  · rw [h]
    exact ⟨rfl, rfl⟩
  · cases hu : getUser st uid with
    | none => exact ⟨rfl, rfl⟩
    | some u =>
      rw [h]
      exact ⟨rfl, rfl⟩

/-- C7 witness: the empty store has neither subject nor reading, and the
evaluation of subject 1 leaves it unchanged. -/
theorem c7_witness :
    check_latest_for_user F0 dist0 0 1 emptyStore = (emptyStore, []) ∧
    findingsOf F0 dist0 0 1 emptyStore = [] :=
  c7_silent_when_missing F0 dist0 0 1 emptyStore (Or.inl (by decide))

/-- C8: the sweep loop of periodic_check_all has no try/except, so under
Python for-loop semantics an exception raised while evaluating subject 1
propagates: the sweep stops with an error, the state shows subject 1 was
attempted and nothing was recorded for subject 2 — the remaining subject
is never evaluated, contradicting the claimed isolation. -/
theorem c8_sweep_aborts :
    forLoopExcept failingEvaluator [1, 2] [] = Except.error ("evaluation raised", []) ∧
    forLoopExcept failingEvaluator [2] [] = Except.ok [2] :=
  ⟨rfl, rfl⟩

/-- With no baseline key the resource check reduces to the fixed spike
threshold, the default mean 0 passing the near-zero test whenever the mean
threshold is positive. -/
theorem resourceCheck_none (x : ℚ) (devTxt : Stat → ℚ → String) (spikeTxt : String)
    (mt spk : ℚ) (hmt : 0 < mt) :
    resourceCheck none x devTxt spikeTxt mt spk =
      if spk < x then ([spikeTxt], true) else ([], false) := by
  simp only [resourceCheck]
  by_cases hx : spk < x
  · rw [if_pos ⟨hmt, hx⟩, if_pos hx]
  · rw [if_neg (fun hcon => hx hcon.2), if_neg hx]

/-- The spike branch's finding and flag are both equivalent to the
threshold condition. -/
theorem spikePair_iff (txt : String) (P : Prop) [Decidable P] :
    ((if P then ([txt], true) else (([] : List String), false)).1 ≠ [] ↔ P) ∧
    ((if P then ([txt], true) else (([] : List String), false)).2 = true ↔ P) := by
  split_ifs with hx <;> simp [hx]

/-- C1 (amended): under the truthiness guard and at home (distance at most
the radius), the composite check raises high_risk exactly when at least
one finding was collected — every possible at-home finding (water or gas
deviation, water or gas spike, either motion anomaly) contains the marker
급증 or 이상, the motion texts included; consequently at home the whole
evaluation's high_risk is equivalent to the findings list being
nonempty. -/
theorem c1_composite (F : Fmt) (dist : ℚ → ℚ → ℚ → ℚ → ℚ) (u : User) (r : SensorReading)
    (b? : Option Baselines) (h : coordsTruthy u r = true)
    (hd : distOf dist u r ≤ (u.geofence_m : ℚ)) :
    (compositeCheck dist u r (evaluate F dist u r b?).1 = true ↔
      (evaluate F dist u r b?).1 ≠ []) ∧
    ((evaluate F dist u r b?).2 = true ↔ (evaluate F dist u r b?).1 ≠ []) := by
  have hgeo : geofenceCheck F dist u r = ([], false) := geofenceCheck_at_home F dist u r h hd
  have hev1 : (evaluate F dist u r b?).1 =
      (waterCheck F b? r).1 ++ (gasCheck F b? r).1 ++ motionCheck b? r := by
    simp only [evaluate, hgeo]
    simp
  have hall : ∀ t ∈ (evaluate F dist u r b?).1, hasMarker t = true := by
    rw [hev1]
    intro t ht
    rw [List.mem_append] at ht
    rcases ht with ht | ht
    · rw [List.mem_append] at ht
      rcases ht with ht | ht
      · exact waterCheck_mem F b? r t ht
      · exact gasCheck_mem F b? r t ht
    · exact motionCheck_mem b? r t ht
  have hiff : ((evaluate F dist u r b?).1.any hasMarker = true) ↔
      (evaluate F dist u r b?).1 ≠ [] := by
    rw [List.any_eq_true]
    constructor
    · rintro ⟨x, hx, -⟩ hnil
      rw [hnil] at hx
      simp at hx
    · intro hne
      obtain ⟨x, hx⟩ := List.exists_mem_of_ne_nil _ hne
      exact ⟨x, hx, hall x hx⟩
  have hcomp : compositeCheck dist u r (evaluate F dist u r b?).1 =
      (evaluate F dist u r b?).1.any hasMarker := by
    unfold compositeCheck
    rw [if_pos h]
    simp [hd]
  have hev2 : (evaluate F dist u r b?).2 =
      ((waterCheck F b? r).2 || (gasCheck F b? r).2 || (geofenceCheck F dist u r).2 ||
        compositeCheck dist u r (evaluate F dist u r b?).1) := rfl
  refine ⟨by rw [hcomp]; exact hiff, ?_⟩
  rw [hev2, hgeo]
  constructor
  · intro h2
    simp only [Bool.or_eq_true] at h2
    rcases h2 with ((hwf | hgf) | hgeof) | hcf
    · have hne := waterCheck_flag F b? r hwf
      rw [hev1]
      simp only [ne_eq, List.append_eq_nil]
      tauto
    · have hne := gasCheck_flag F b? r hgf
      rw [hev1]
      simp only [ne_eq, List.append_eq_nil]
      tauto
    · simp at hgeof
    · rw [hcomp] at hcf
      exact hiff.mp hcf
  · intro hne
    have hc : compositeCheck dist u r (evaluate F dist u r b?).1 = true := by
      rw [hcomp]
      exact hiff.mpr hne
    simp [hc]

/-- C1 counterexample: at home (truthy coordinates, distance 10 within the
500 m radius), with flat positive-variance water and gas baselines and no
resource anomaly, the motion-anomaly finding alone is collected — and the
evaluation ends with high_risk true, because the motion text 활동 이상
contains the substring 이상 scanned by the composite rule, refuting the
claim that a motion finding alone at home never sets high_risk. -/
theorem c1_counterexample :
    coordsTruthy u1 r1 = true ∧ distOf dist10 u1 r1 ≤ (u1.geofence_m : ℚ) ∧
    evaluate F0 dist10 u1 r1 (some b1) = (["활동 이상(평소 활동적이나 현재 무활동)"], true) := by
  have hct : coordsTruthy u1 r1 = true := by
    simp [coordsTruthy, truthyQ, u1, r1]
  have hd : distOf dist10 u1 r1 ≤ (u1.geofence_m : ℚ) := by
    norm_num [distOf, dist10, u1]
  have hw : waterCheck F0 (some b1) r1 = ([], false) := by
    simp only [waterCheck, resourceCheck, b1, r1, F0, Option.map]
    norm_num
  have hg : gasCheck F0 (some b1) r1 = ([], false) := by
    simp only [gasCheck, resourceCheck, b1, r1, F0, Option.map]
    norm_num
  have hm : motionCheck (some b1) r1 = ["활동 이상(평소 활동적이나 현재 무활동)"] := by
    simp only [motionCheck, b1, r1]
    norm_num
  have hgeo : geofenceCheck F0 dist10 u1 r1 = ([], false) :=
    geofenceCheck_at_home F0 dist10 u1 r1 hct hd
  have hc : compositeCheck dist10 u1 r1 ["활동 이상(평소 활동적이나 현재 무활동)"] = true := by
    unfold compositeCheck
    rw [if_pos hct]
    simp only [hd, decide_eq_true_eq]
    simp [hd]
    decide
  refine ⟨hct, hd, ?_⟩
  simp only [evaluate, hw, hg, hm, hgeo]
  simp [hc]

/-- C1 witness: the amended composite theorem applied at the concrete
at-home instance with the b1 baseline. -/
theorem c1_witness :
    ((evaluate F0 dist10 u1 r1 (some b1)).2 = true ↔
      (evaluate F0 dist10 u1 r1 (some b1)).1 ≠ []) :=
  (c1_composite F0 dist10 u1 r1 (some b1) (by simp [coordsTruthy, truthyQ, u1, r1])
    (by norm_num [distOf, dist10, u1])).2

/-- C2 (amended): with zero readings in the window compute_baselines does
return the empty mapping; but the evaluator then treats the missing keys
as a zero mean via the dictionary default, so the near-zero-spike rule
applies: with an empty baseline a water spike finding (and the high flag)
is emitted exactly when the latest water exceeds 5 L, a gas spike exactly
when the latest gas exceeds 0.1 m³, while the motion check stays silent. -/
theorem c2_empty_baseline (now : ℕ) (uid : ℤ) (st : Store) (F : Fmt) (r : SensorReading) :
    (windowReadings now uid st = [] → compute_baselines now uid st = none) ∧
    ((waterCheck F none r).1 ≠ [] ↔ 5 < r.water_l) ∧
    ((waterCheck F none r).2 = true ↔ 5 < r.water_l) ∧
    ((gasCheck F none r).1 ≠ [] ↔ 1 / 10 < r.gas_m3) ∧
    ((gasCheck F none r).2 = true ↔ 1 / 10 < r.gas_m3) ∧
    motionCheck none r = [] := by
  have hw : waterCheck F none r =
      if 5 < r.water_l
      then (["수도 사용 급증: " ++ F.fq r.water_l ++ "L (평소 거의 사용 없음)"], true)
      else ([], false) := by
    unfold waterCheck
    rw [Option.map_none']
    exact resourceCheck_none _ _ _ _ _ (by norm_num)
  have hg : gasCheck F none r =
      if 1 / 10 < r.gas_m3
      then (["가스 사용 급증: " ++ F.fq r.gas_m3 ++ "m³ (평소 거의 사용 없음)"], true)
      else ([], false) := by
    unfold gasCheck
    rw [Option.map_none']
    exact resourceCheck_none _ _ _ _ _ (by norm_num)
  refine ⟨fun h => by simp [compute_baselines, h], ?_, ?_, ?_, ?_, rfl⟩
  · rw [hw]
    exact (spikePair_iff _ _).1
  · rw [hw]
    exact (spikePair_iff _ _).2
  · rw [hg]
    exact (spikePair_iff _ _).1
  · rw [hg]
    exact (spikePair_iff _ _).2

/-- Shared concrete fact: the stale store st2 yields the empty baseline
mapping. -/
theorem cb_st2 : compute_baselines now2 1 st2 = none := by
  have hwr : windowReadings now2 1 st2 = [] := by decide
  simp [compute_baselines, hwr]

/-- Shared concrete fact: on st2's stale 6 L reading with no baseline the
evaluation emits exactly the water spike finding and the high flag. -/
theorem eval_r2_none :
    evaluate F0 dist0 u2 r2 none =
      (["수도 사용 급증: " ++ F0.fq r2.water_l ++ "L (평소 거의 사용 없음)"], true) := by
  have hw : waterCheck F0 none r2 =
      (["수도 사용 급증: " ++ F0.fq r2.water_l ++ "L (평소 거의 사용 없음)"], true) := by
    simp only [waterCheck, resourceCheck, r2, Option.map]
    norm_num
  have hg : gasCheck F0 none r2 = ([], false) := by
    simp only [gasCheck, resourceCheck, r2, Option.map]
    norm_num
  have hct : coordsTruthy u2 r2 = false := by
    simp [coordsTruthy, truthyQ, r2]
  have hgeo : geofenceCheck F0 dist0 u2 r2 = ([], false) :=
    geofenceCheck_not_truthy F0 dist0 u2 r2 hct
  have hcomp : ∀ details, compositeCheck dist0 u2 r2 details = false :=
    fun d => compositeCheck_not_truthy dist0 u2 r2 d hct
  simp only [evaluate, hw, hg, hgeo, motionCheck, hcomp]
  simp

/-- Shared concrete fact: the findings of one evaluation of subject 1 in
st2 are exactly the water spike finding. -/
theorem findings_st2 :
    findingsOf F0 dist0 now2 1 st2 =
      ["수도 사용 급증: " ++ F0.fq r2.water_l ++ "L (평소 거의 사용 없음)"] := by
  have hgu : getUser st2 1 = some u2 := by decide
  have hlr : latestReading 1 st2 = some r2 := by decide
  simp only [findingsOf, hgu, hlr, cb_st2, eval_r2_none]

/-- C2 counterexample: subject 1 of st2 has zero readings inside the
lookback window (compute_baselines returns the empty mapping) and a stale
latest reading of 6 L water, yet a near-zero-spike finding IS emitted with
the high flag and one alert is persisted — refuting the claim that an
empty baseline mapping suppresses the spike rule. -/
theorem c2_counterexample :
    compute_baselines now2 1 st2 = none ∧ latestReading 1 st2 = some r2 ∧
    (evaluate F0 dist0 u2 r2 (compute_baselines now2 1 st2)).1 ≠ [] ∧
    (evaluate F0 dist0 u2 r2 (compute_baselines now2 1 st2)).2 = true ∧
    (check_latest_for_user F0 dist0 now2 1 st2).1.alerts.length = 1 := by
  have hlr : latestReading 1 st2 = some r2 := by decide
  have hgu : getUser st2 1 = some u2 := by decide
  refine ⟨cb_st2, hlr, ?_, ?_, ?_⟩
  · rw [cb_st2, eval_r2_none]
    simp
  · rw [cb_st2, eval_r2_none]
  · simp only [check_latest_for_user, hgu, hlr, cb_st2, eval_r2_none]
    rw [if_neg (by simp)]
    rw [record_alerts_eq]
    simp [st2]

/-- C2 witness: the amended theorem applied on st2 and its stale reading:
the window is empty, the baseline mapping is empty, and the 6 L reading
fires the water spike branch. -/
theorem c2_witness :
    compute_baselines now2 1 st2 = none ∧ (waterCheck F0 none r2).1 ≠ [] :=
  ⟨(c2_empty_baseline now2 1 st2 F0 r2).1 (by decide),
    (c2_empty_baseline now2 1 st2 F0 r2).2.1.mpr (by norm_num [r2])⟩

/-- C6: an alert is persisted exactly when the findings list of the
evaluation is nonempty — an unchanged alert table is equivalent to empty
findings, and nonempty findings persist exactly one alert whose details
are those findings joined with a semicolon, for any inputs and either
value of high_risk. -/
theorem c6_alert_iff_findings (F : Fmt) (dist : ℚ → ℚ → ℚ → ℚ → ℚ) (now : ℕ) (uid : ℤ)
    (st : Store) :
    ((check_latest_for_user F dist now uid st).1.alerts = st.alerts ↔
      findingsOf F dist now uid st = []) ∧
    (findingsOf F dist now uid st ≠ [] → ∃ a,
      (check_latest_for_user F dist now uid st).1.alerts = st.alerts ++ [a] ∧
      a.details = String.intercalate "; " (findingsOf F dist now uid st)) := by
  cases hgu : getUser st uid with
  | none =>
    simp only [check_latest_for_user, findingsOf, hgu]
    exact ⟨by simp, fun h => absurd rfl h⟩
  | some u =>
    cases hlr : latestReading uid st with
    | none =>
      simp only [check_latest_for_user, findingsOf, hgu, hlr]
      exact ⟨by simp, fun h => absurd rfl h⟩
    | some r =>
      simp only [check_latest_for_user, findingsOf, hgu, hlr]
      by_cases he : (evaluate F dist u r (compute_baselines now uid st)).1 = []
      · rw [if_pos he]
        exact ⟨by simp [he], fun h => absurd he h⟩
      · rw [if_neg he]
        constructor
        · rw [record_alerts_eq]
          constructor
          · intro hcontra
            exact absurd hcontra (append_singleton_ne _ _)
          · intro h
            exact absurd h he
        · intro _
          exact ⟨_, record_alerts_eq _ _ _ _, rfl⟩

/-- C6 witness: on st2 the nonempty findings produce exactly one appended
alert carrying the joined findings. -/
theorem c6_witness :
    ∃ a, (check_latest_for_user F0 dist0 now2 1 st2).1.alerts = st2.alerts ++ [a] ∧
      a.details = String.intercalate "; " (findingsOf F0 dist0 now2 1 st2) :=
  (c6_alert_iff_findings F0 dist0 now2 1 st2).2 (by rw [findings_st2]; simp)

/-- C9: the dispatcher always persists exactly one alert whose sent_to is
the comma-joined attempted contact list — also when the subject is absent
(empty contacts, no notification) and when both channels are falsy; and
from the evaluation path, with a subject, a latest reading and nonempty
findings, the persisted alert carries the HIGH/LOW label chosen by
high_risk and the findings joined with a semicolon. -/
theorem c9_dispatch_persists (uid : ℤ) (t d : String) (st : Store) (F : Fmt)
    (dist : ℚ → ℚ → ℚ → ℚ → ℚ) (now : ℕ) :
    ((record_and_send_alert uid t d st).1.alerts = st.alerts ++
      [{ user_id := uid, alert_type := t, details := d
         sent_to := String.intercalate "," (attemptedContacts st uid) }]) ∧
    (getUser st uid = none →
      attemptedContacts st uid = [] ∧ (record_and_send_alert uid t d st).2 = []) ∧
    (∀ u, getUser st uid = some u → truthyS u.email = false → truthyS u.phone = false →
      attemptedContacts st uid = [] ∧ (record_and_send_alert uid t d st).2 = []) ∧
    (∀ user r, getUser st uid = some user → latestReading uid st = some r →
      (evaluate F dist user r (compute_baselines now uid st)).1 ≠ [] →
      (check_latest_for_user F dist now uid st).1.alerts = st.alerts ++
        [{ user_id := uid
           alert_type :=
             (if (evaluate F dist user r (compute_baselines now uid st)).2
              then "HIGH" else "LOW") ++ " 이상징후"
           details := String.intercalate "; "
             (evaluate F dist user r (compute_baselines now uid st)).1
           sent_to := String.intercalate "," (attemptedContacts st uid) }]) := by
  refine ⟨record_alerts_eq uid t d st, ?_, ?_, ?_⟩
  · intro h
    unfold attemptedContacts record_and_send_alert
    rw [h]
    exact ⟨rfl, rfl⟩
  · intro u hu he hp
    have hemail : (match u.email with
        | some e => if e ≠ "" then [e] else []
        | none => ([] : List String)) = [] := by
      cases hse : u.email with
      | none => rfl
      | some e =>
        simp [truthyS, hse] at he
        simp [he]
    have hphone : (match u.phone with
        | some p => if p ≠ "" then [p] else []
        | none => ([] : List String)) = [] := by
      cases hsp : u.phone with
      | none => rfl
      | some p =>
        simp [truthyS, hsp] at hp
        simp [hp]
    constructor
    · unfold attemptedContacts
      rw [hu]
      dsimp only
      rw [hemail, hphone]
      rfl
    · unfold record_and_send_alert
      rw [hu]
      dsimp only
      rw [hemail, hphone]
      simp
  · intro user r hu hr hne
    simp only [check_latest_for_user, hu, hr]
    rw [if_neg hne]
    exact record_alerts_eq _ _ _ _

/-- C9 witness: on st2 (subject with both contact channels) the dispatcher
and the evaluation path each persist exactly one alert with the joined
recipients. -/
theorem c9_witness :
    ((record_and_send_alert 1 "T" "D" st2).1.alerts = st2.alerts ++
      [{ user_id := 1, alert_type := "T", details := "D"
         sent_to := String.intercalate "," (attemptedContacts st2 1) }]) ∧
    ((check_latest_for_user F0 dist0 now2 1 st2).1.alerts = st2.alerts ++
      [{ user_id := 1
         alert_type :=
           (if (evaluate F0 dist0 u2 r2 (compute_baselines now2 1 st2)).2
            then "HIGH" else "LOW") ++ " 이상징후"
         details := String.intercalate "; "
           (evaluate F0 dist0 u2 r2 (compute_baselines now2 1 st2)).1
         sent_to := String.intercalate "," (attemptedContacts st2 1) }]) :=
  ⟨(c9_dispatch_persists 1 "T" "D" st2 F0 dist0 now2).1,
    (c9_dispatch_persists 1 "T" "D" st2 F0 dist0 now2).2.2.2 u2 r2 (by decide) (by decide)
      (by rw [cb_st2, eval_r2_none]; simp)⟩

/-- The guarded statistics of a nonempty column satisfy the mean and
population-variance specification, and fewer than two samples force a zero
variance. -/
theorem statOf_spec (xs : List ℚ) (h : xs ≠ []) :
    statSpec xs (statOf xs) ∧ (xs.length < 2 → (statOf xs).var = 0) := by
  have hl : 0 < xs.length := List.length_pos.mpr h
  have hn : (xs.length : ℚ) ≠ 0 := Nat.cast_ne_zero.mpr hl.ne'
  refine ⟨⟨div_mul_cancel₀ _ hn, ?_⟩, ?_⟩
  · by_cases h2 : 1 < xs.length
    · simp only [statOf]
      rw [if_pos h2]
      exact div_mul_cancel₀ _ hn
    · have h1 : xs.length = 1 := by omega
      obtain ⟨x, hx⟩ := List.length_eq_one.mp h1
      subst hx
      simp only [statOf]
      norm_num
  · intro h2
    simp only [statOf]
    rw [if_neg (by omega)]

/-- C10: with at least one reading in the window, compute_baselines maps
each of water, gas and motion to the arithmetic mean over the window and
the population variance (sum of squared deviations divided by N, stated
multiplied through by N), the variance being exactly 0 — hence the
standard deviation exactly 0 — whenever fewer than two samples exist; the
rational-valued definition is total, so no NaN can arise. -/
theorem c10_baselines (now : ℕ) (uid : ℤ) (st : Store)
    (h : windowReadings now uid st ≠ []) :
    ∃ b, compute_baselines now uid st = some b ∧
      statSpec ((windowReadings now uid st).map SensorReading.water_l) b.water_l ∧
      statSpec ((windowReadings now uid st).map SensorReading.gas_m3) b.gas_m3 ∧
      statSpec ((windowReadings now uid st).map (fun r => (r.motion : ℚ))) b.motion ∧
      ((windowReadings now uid st).length < 2 →
        b.water_l.var = 0 ∧ b.gas_m3.var = 0 ∧ b.motion.var = 0) := by
  have hw : (windowReadings now uid st).map SensorReading.water_l ≠ [] := by
    simpa using h
  have hg : (windowReadings now uid st).map SensorReading.gas_m3 ≠ [] := by
    simpa using h
  have hm : (windowReadings now uid st).map (fun r => (r.motion : ℚ)) ≠ [] := by
    simpa using h
  refine ⟨{ water_l := statOf ((windowReadings now uid st).map SensorReading.water_l)
            gas_m3 := statOf ((windowReadings now uid st).map SensorReading.gas_m3)
            motion := statOf ((windowReadings now uid st).map (fun r => (r.motion : ℚ))) },
    by simp [compute_baselines, h], (statOf_spec _ hw).1, (statOf_spec _ hg).1,
    (statOf_spec _ hm).1, ?_⟩
  intro h2
  exact ⟨(statOf_spec _ hw).2 (by simpa using h2), (statOf_spec _ hg).2 (by simpa using h2),
    (statOf_spec _ hm).2 (by simpa using h2)⟩

/-- C10 witness: the single-fresh-reading store st10 yields a baseline
whose water statistics satisfy the specification. -/
theorem c10_witness :
    ∃ b, compute_baselines 1000000 1 st10 = some b ∧
      statSpec ((windowReadings 1000000 1 st10).map SensorReading.water_l) b.water_l := by
  obtain ⟨b, h1, h2, -, -, -⟩ := c10_baselines 1000000 1 st10 (by decide)
  exact ⟨b, h1, h2⟩

end ElderlyMonitor
